import Mathlib

/-!
Shallow embedding of the VolunteerConnect Hub client data layer
(src/assets/js/database.js, src/assets/js/auth.js, src/assets/js/app.js).

JavaScript objects are modelled as partial maps from field names to JS
values; the JS spread operator corresponds to `Obj.merge` / `Obj.set`.
Browser `localStorage` is modelled as a record with one field per storage
key used by the code (`volunteerConnectUser`, `volunteerProfile`,
`volunteerHoursLog`, `volunteerEvents`, `volunteerLetters`).  The Supabase
backend is modelled as a record of tables; the authenticated Supabase
session is a field of the combined state.  Wall-clock reads
(`Date.now()`, `new Date().toISOString()`) are passed in as explicit
timestamp parameters.  ISO timestamp strings written by the code are
represented by their numeric time value (`JsVal.num`), which preserves
their ordering.
-/

/-- A JavaScript value stored in a row field: string, number, boolean or
null.  Numbers are modelled as integers (the code only stores timestamps
and ids in the fields these proofs inspect). -/
inductive JsVal where
  | str (s : String)
  | num (n : Int)
  | bool (b : Bool)
  | null
deriving DecidableEq, Repr

/-- A JavaScript object: a partial map from field names to values. -/
def Obj : Type := String → Option JsVal

/-- The empty object, written in the source as a fresh object literal or
the JSON text between braces with nothing inside. -/
def Obj.empty : Obj := fun _ => none

/-- Setting a single field, as in a spread followed by an explicit field:
the explicit field wins. -/
def Obj.set (o : Obj) (k : String) (v : JsVal) : Obj :=
  fun q => if q = k then some v else o q

/-- Merging two objects by spreading `o` first and `x` second: fields of
`x` override fields of `o`, all other fields of `o` are kept. -/
def Obj.merge (o x : Obj) : Obj :=
  fun q => match x q with
    | some v => some v
    | none => o q

/-- Building a concrete object from a field/value list (first match
wins); used only to construct concrete test inputs. -/
def Obj.ofList (ps : List (String × JsVal)) : Obj :=
  fun q => (ps.find? (fun p => p.1 = q)).map (fun p => p.2)

/-- Reading a string-valued field, with the empty string as default; used
to model backend ordering/filtering on text and date columns. -/
def Obj.strD (o : Obj) (k : String) : String :=
  match o k with
  | some (JsVal.str s) => s
  | _ => ""

/-- Reading a number-valued field with default 0. -/
def Obj.numD (o : Obj) (k : String) : Int :=
  match o k with
  | some (JsVal.num n) => n
  | _ => 0

/-- Backend column comparison `column >= v` (gte filter): true only when
the field is present as a string and is at least `v`. -/
def Obj.fieldGe (o : Obj) (k v : String) : Bool :=
  match o k with
  | some (JsVal.str s) => v ≤ s
  | _ => false

/-- Backend column comparison `column <= v` (lte filter). -/
def Obj.fieldLe (o : Obj) (k v : String) : Bool :=
  match o k with
  | some (JsVal.str s) => s ≤ v
  | _ => false

/-- The authenticated Supabase session user (remote mode); only its `id`
is consulted by the data layer. -/
structure RemoteUser where
  id : String
deriving DecidableEq, Repr

/-- The demo user persisted under the `volunteerConnectUser` storage key
by `completeDemoLogin` in auth.js. -/
structure DemoUser where
  uid : String
  displayName : String
  email : String
  photoURL : String
deriving DecidableEq, Repr

/-- The browser localStorage keys used by the data layer, one field per
key: `volunteerConnectUser`, `volunteerProfile`, `volunteerHoursLog`,
`volunteerEvents`, `volunteerLetters`. -/
structure LocalStore where
  user : Option DemoUser
  profile : Option Obj
  hoursLog : List Obj
  events : List Obj
  letters : List Obj

/-- A row of the globally shared `opportunities` table, with the columns
the query in dbGetOpportunities touches. -/
structure Opp where
  id : String
  is_active : Bool
  cause_areas : List String
  is_virtual : Bool
  updated_at : Int
deriving DecidableEq, Repr

/-- The Supabase tables touched by the embedded operations.  `profiles`
is keyed by user id (one row per user); the per-user tables hold rows
with a `user_id` column. -/
structure RemoteDb where
  profiles : String → Option Obj
  hours_log : List Obj
  events : List Obj
  letters : List Obj
  opportunities : List Opp

/-- The combined state a data-layer call sees: the two flags read by
isDatabaseAvailable, the Supabase session user, the localStorage
contents, the remote tables, whether the backend reports an error for
the query issued by the current call, and the bundled static
opportunities snapshot (`none` models a failed fetch). -/
structure DbState where
  dbInitialized : Bool
  hasClient : Bool
  authUser : Option RemoteUser
  store : LocalStore
  remote : RemoteDb
  remoteError : Bool
  staticOpps : Option (List Opp)

/-- isDatabaseAvailable: `dbInitialized && supabaseClient !== null`. -/
def isDatabaseAvailable (st : DbState) : Bool :=
  st.dbInitialized && st.hasClient

/-- The failure conditions a data-layer call can raise: the explicit
`new Error('Not authenticated')`, or an error object reported by the
backend client. -/
inductive DbError where
  | unauthenticated
  | backend
deriving DecidableEq, Repr

/-- Filters accepted by dbGetHoursLog. -/
structure HoursFilters where
  startDate : Option String
  endDate : Option String

/-- Filters accepted by dbGetEvents (`upcoming` flag). -/
structure EventFilters where
  upcoming : Bool

/-- Filters accepted by dbGetLetters (`type`, matched against the
`letter_type` column in remote mode). -/
structure LetterFilters where
  type : Option String

/-- Filters accepted by dbGetOpportunities.  `limit` mirrors the JS
truthiness test `if (filters.limit)`: the limit is applied only when
present and nonzero. -/
structure OppFilters where
  causeArea : Option String
  isVirtual : Option Bool
  limit : Option Nat

/-- dbGetCurrentUser in remote mode: the Supabase session user. -/
def dbGetCurrentUserRemote (st : DbState) : Option RemoteUser :=
  st.authUser

/-- dbSignOut: in local mode removes the `volunteerConnectUser` and
`volunteerProfile` keys (notifying the UI with null); in remote mode
signs out of the Supabase session. -/
def dbSignOut (st : DbState) : DbState :=
  if isDatabaseAvailable st = false then
    { st with store := { st.store with user := none, profile := none } }
  else
    { st with authUser := none }

/-- dbGetProfile: localStorage `volunteerProfile` in local mode; in
remote mode requires a session user and selects the `profiles` row keyed
by the user id, returning null on a backend error. -/
def dbGetProfile (st : DbState) : Option Obj :=
  if isDatabaseAvailable st = false then
    st.store.profile
  else
    match dbGetCurrentUserRemote st with
    | none => none
    | some u => if st.remoteError then none else st.remote.profiles u.id

/-- dbUpdateProfile: in local mode merges the update into the stored
profile (empty object when absent), refreshes `updated_at` and persists;
in remote mode requires a session user and updates the `profiles` row
keyed by the user id with the merge, returning the updated row.  `now`
is the wall clock read by `new Date().toISOString()`. -/
def dbUpdateProfile (st : DbState) (profileData : Obj) (now : Int) :
    Except DbError Obj × DbState :=
  if isDatabaseAvailable st = false then
    let existing := st.store.profile.getD Obj.empty
    let updated := (existing.merge profileData).set "updated_at" (JsVal.num now)
    (Except.ok updated, { st with store := { st.store with profile := some updated } })
  else
    match dbGetCurrentUserRemote st with
    | none => (Except.error DbError.unauthenticated, st)
    | some u =>
      if st.remoteError then (Except.error DbError.backend, st)
      else
        match st.remote.profiles u.id with
        | none => (Except.error DbError.backend, st)
        | some p =>
          let updated := (p.merge profileData).set "updated_at" (JsVal.num now)
          (Except.ok updated,
           { st with remote := { st.remote with
               profiles := fun k => if k = u.id then some updated else st.remote.profiles k } })

/-- The local-mode branch of dbGetHoursLog: read the stored log and
apply the optional startDate/endDate filters. -/
def localGetHoursLog (store : LocalStore) (filters : HoursFilters) : List Obj :=
  let hours := store.hoursLog
  let hours := match filters.startDate with
    | some d => hours.filter (fun h => Obj.fieldGe h "date" d)
    | none => hours
  match filters.endDate with
  | some d => hours.filter (fun h => Obj.fieldLe h "date" d)
  | none => hours

/-- The remote query issued by dbGetHoursLog for an authenticated user:
rows of `hours_log` with `user_id` equal to the session user id, the
optional date-range filters, ordered by date descending. -/
def remoteHoursQuery (db : RemoteDb) (uid : String) (filters : HoursFilters) : List Obj :=
  let rows := db.hours_log.filter (fun h => decide (h "user_id" = some (JsVal.str uid)))
  let rows := match filters.startDate with
    | some d => rows.filter (fun h => Obj.fieldGe h "date" d)
    | none => rows
  let rows := match filters.endDate with
    | some d => rows.filter (fun h => Obj.fieldLe h "date" d)
    | none => rows
  rows.mergeSort (fun a b => decide (Obj.strD b "date" ≤ Obj.strD a "date"))

/-- dbGetHoursLog: local-mode filtered read of `volunteerHoursLog`; in
remote mode returns the empty list when no session user is present, and
otherwise issues the scoped query (throwing the backend error when the
query fails). -/
def dbGetHoursLog (st : DbState) (filters : HoursFilters) :
    Except DbError (List Obj) :=
  if isDatabaseAvailable st = false then
    Except.ok (localGetHoursLog st.store filters)
  else
    match dbGetCurrentUserRemote st with
    | none => Except.ok []
    | some u =>
      if st.remoteError then Except.error DbError.backend
      else Except.ok (remoteHoursQuery st.remote u.id filters)

/-- dbAddHoursEntry: in local mode stamps the entry with a fresh id
(`Date.now().toString()`) and a creation timestamp and appends it to the
stored log; in remote mode requires a session user and inserts the entry
with `user_id` forced to the session user id (a caller-supplied
`user_id` field is overwritten by the spread). -/
def dbAddHoursEntry (st : DbState) (entry : Obj) (now : Int) :
    Except DbError Obj × DbState :=
  if isDatabaseAvailable st = false then
    let newEntry := (entry.set "id" (JsVal.str (toString now))).set "created_at" (JsVal.num now)
    (Except.ok newEntry,
     { st with store := { st.store with hoursLog := st.store.hoursLog ++ [newEntry] } })
  else
    match dbGetCurrentUserRemote st with
    | none => (Except.error DbError.unauthenticated, st)
    | some u =>
      if st.remoteError then (Except.error DbError.backend, st)
      else
        let payload := entry.set "user_id" (JsVal.str u.id)
        (Except.ok payload,
         { st with remote := { st.remote with hours_log := st.remote.hours_log ++ [payload] } })

/-- dbDeleteHoursEntry: in local mode keeps exactly the stored rows whose
id differs from the argument (strict inequality, a no-op when no row
matches); in remote mode requires a session user and deletes the rows
matching both the id and the session user id. -/
def dbDeleteHoursEntry (st : DbState) (id : String) :
    Except DbError Unit × DbState :=
  if isDatabaseAvailable st = false then
    (Except.ok (),
     { st with store := { st.store with
         hoursLog := st.store.hoursLog.filter (fun h => decide (h "id" ≠ some (JsVal.str id))) } })
  else
    match dbGetCurrentUserRemote st with
    | none => (Except.error DbError.unauthenticated, st)
    | some u =>
      if st.remoteError then (Except.error DbError.backend, st)
      else
        (Except.ok (),
         { st with remote := { st.remote with
             hours_log := st.remote.hours_log.filter
               (fun h => decide (¬ (h "id" = some (JsVal.str id) ∧
                                    h "user_id" = some (JsVal.str u.id)))) } })

/-- The local-mode branch of dbGetEvents: the stored events, restricted
to dates at or after `today` when the `upcoming` flag is set (`today` is
the wall-clock date string the code computes). -/
def localGetEvents (store : LocalStore) (filters : EventFilters) (today : String) : List Obj :=
  if filters.upcoming then
    store.events.filter (fun e => Obj.fieldGe e "date" today)
  else
    store.events

/-- The remote query issued by dbGetEvents for an authenticated user:
rows of `events` with the session user id, the optional upcoming filter,
ordered by date ascending. -/
def remoteEventsQuery (db : RemoteDb) (uid : String) (filters : EventFilters)
    (today : String) : List Obj :=
  let rows := db.events.filter (fun e => decide (e "user_id" = some (JsVal.str uid)))
  let rows := if filters.upcoming then rows.filter (fun e => Obj.fieldGe e "date" today) else rows
  rows.mergeSort (fun a b => decide (Obj.strD a "date" ≤ Obj.strD b "date"))

/-- dbGetEvents: local-mode filtered read of `volunteerEvents`; in remote
mode returns the empty list when no session user is present, otherwise
issues the scoped query. -/
def dbGetEvents (st : DbState) (filters : EventFilters) (today : String) :
    Except DbError (List Obj) :=
  if isDatabaseAvailable st = false then
    Except.ok (localGetEvents st.store filters today)
  else
    match dbGetCurrentUserRemote st with
    | none => Except.ok []
    | some u =>
      if st.remoteError then Except.error DbError.backend
      else Except.ok (remoteEventsQuery st.remote u.id filters today)

/-- dbAddEvent: in local mode stamps the event with a fresh id and a
creation timestamp and appends it to `volunteerEvents`; in remote mode
requires a session user and inserts the event with `user_id` forced to
the session user id. -/
def dbAddEvent (st : DbState) (event : Obj) (now : Int) :
    Except DbError Obj × DbState :=
  if isDatabaseAvailable st = false then
    let newEvent := (event.set "id" (JsVal.str (toString now))).set "created_at" (JsVal.num now)
    (Except.ok newEvent,
     { st with store := { st.store with events := st.store.events ++ [newEvent] } })
  else
    match dbGetCurrentUserRemote st with
    | none => (Except.error DbError.unauthenticated, st)
    | some u =>
      if st.remoteError then (Except.error DbError.backend, st)
      else
        let payload := event.set "user_id" (JsVal.str u.id)
        (Except.ok payload,
         { st with remote := { st.remote with events := st.remote.events ++ [payload] } })

/-- dbDeleteEvent: in local mode keeps exactly the stored events whose id
differs from the argument; in remote mode requires a session user and
deletes the rows matching both the id and the session user id. -/
def dbDeleteEvent (st : DbState) (id : String) :
    Except DbError Unit × DbState :=
  if isDatabaseAvailable st = false then
    (Except.ok (),
     { st with store := { st.store with
         events := st.store.events.filter (fun e => decide (e "id" ≠ some (JsVal.str id))) } })
  else
    match dbGetCurrentUserRemote st with
    | none => (Except.error DbError.unauthenticated, st)
    | some u =>
      if st.remoteError then (Except.error DbError.backend, st)
      else
        (Except.ok (),
         { st with remote := { st.remote with
             events := st.remote.events.filter
               (fun e => decide (¬ (e "id" = some (JsVal.str id) ∧
                                    e "user_id" = some (JsVal.str u.id)))) } })

/-- The remote query issued by dbGetLetters for an authenticated user:
rows of `letters` with the session user id, optionally restricted to one
`letter_type`, ordered by creation time descending. -/
def remoteLettersQuery (db : RemoteDb) (uid : String) (filters : LetterFilters) : List Obj :=
  let rows := db.letters.filter (fun l => decide (l "user_id" = some (JsVal.str uid)))
  let rows : List Obj := match filters.type with
    | some t => rows.filter (fun l => decide (l "letter_type" = some (JsVal.str t)))
    | none => rows
  rows.mergeSort (fun a b => decide (Obj.numD b "created_at" ≤ Obj.numD a "created_at"))

/-- dbGetLetters: in local mode returns the whole stored `volunteerLetters`
sequence (the filters argument is not consulted); in remote mode returns
the empty list when no session user is present, otherwise issues the
scoped query. -/
def dbGetLetters (st : DbState) (filters : LetterFilters) :
    Except DbError (List Obj) :=
  if isDatabaseAvailable st = false then
    Except.ok st.store.letters
  else
    match dbGetCurrentUserRemote st with
    | none => Except.ok []
    | some u =>
      if st.remoteError then Except.error DbError.backend
      else Except.ok (remoteLettersQuery st.remote u.id filters)

/-- dbSaveLetter: in local mode stamps the letter with a fresh id and a
creation timestamp and appends it to `volunteerLetters`; in remote mode
requires a session user and inserts the letter with `user_id` forced to
the session user id. -/
def dbSaveLetter (st : DbState) (letter : Obj) (now : Int) :
    Except DbError Obj × DbState :=
  if isDatabaseAvailable st = false then
    let newLetter := (letter.set "id" (JsVal.str (toString now))).set "created_at" (JsVal.num now)
    (Except.ok newLetter,
     { st with store := { st.store with letters := st.store.letters ++ [newLetter] } })
  else
    match dbGetCurrentUserRemote st with
    | none => (Except.error DbError.unauthenticated, st)
    | some u =>
      if st.remoteError then (Except.error DbError.backend, st)
      else
        let payload := letter.set "user_id" (JsVal.str u.id)
        (Except.ok payload,
         { st with remote := { st.remote with letters := st.remote.letters ++ [payload] } })

/-- The query dbGetOpportunities builds against the `opportunities`
table: active rows only, the optional cause-area containment and
virtual-flag equality filters, ordered by `updated_at` descending, then
the result-count limit (applied only when present and nonzero, mirroring
the JS truthiness test on `filters.limit`). -/
def oppQuery (opps : List Opp) (filters : OppFilters) : List Opp :=
  let rows := opps.filter (fun o => o.is_active)
  let rows : List Opp := match filters.causeArea with
    | some c => rows.filter (fun o => o.cause_areas.contains c)
    | none => rows
  let rows : List Opp := match filters.isVirtual with
    | some b => rows.filter (fun o => o.is_virtual = b)
    | none => rows
  let rows := rows.mergeSort (fun a b => decide (b.updated_at ≤ a.updated_at))
  match filters.limit with
  | some n => if n = 0 then rows else rows.take n
  | none => rows

/-- dbGetOpportunities: never consults the session user.  When the remote
client is available and the query succeeds, returns the filtered active
rows; on a backend error, or when remote mode is unavailable, falls back
to the bundled static snapshot, and returns the empty list when even that
fetch fails.  No failure is surfaced to the caller. -/
def dbGetOpportunities (st : DbState) (filters : OppFilters) : List Opp :=
  if isDatabaseAvailable st = true ∧ st.remoteError = false then
    oppQuery st.remote.opportunities filters
  else
    match st.staticOpps with
    | some opps => opps
    | none => []

/-- JavaScript `String.prototype.trim` on the character list: drop
whitespace from both ends. -/
def trimChars (l : List Char) : List Char :=
  ((l.dropWhile Char.isWhitespace).reverse.dropWhile Char.isWhitespace).reverse

/-- JavaScript `value.trim()`. -/
def jsTrim (s : String) : String :=
  String.mk (trimChars s.data)

/-- JavaScript `s.includes(c)` for a single character. -/
def jsIncludes (s : String) (c : Char) : Bool :=
  s.data.contains c

/-- Characters `encodeURIComponent` leaves unescaped. -/
def uriUnreserved (c : Char) : Bool :=
  c.isAlphanum || c = '-' || c = '_' || c = '.' || c = '!' || c = '~' ||
    c = '*' || c = Char.ofNat 39 || c = '(' || c = ')'

/-- Uppercase hexadecimal digit of a value below 16. -/
def hexDigitChar (n : Nat) : Char :=
  if n < 10 then Nat.digitChar n else Char.ofNat (55 + n)

/-- UTF-8 byte sequence of one code point. -/
def utf8Bytes (c : Char) : List Nat :=
  let n := c.toNat
  if n < 128 then [n]
  else if n < 2048 then [192 + n / 64, 128 + n % 64]
  else if n < 65536 then [224 + n / 4096, 128 + n / 64 % 64, 128 + n % 64]
  else [240 + n / 262144, 128 + n / 4096 % 64, 128 + n / 64 % 64, 128 + n % 64]

/-- Percent-escape of one byte, as emitted by `encodeURIComponent`. -/
def percentEncodeByte (b : Nat) : List Char :=
  ['%', hexDigitChar (b / 16 % 16), hexDigitChar (b % 16)]

/-- JavaScript `encodeURIComponent`: unreserved characters kept, all
others percent-encoded bytewise. -/
def encodeURIComponentJs (s : String) : String :=
  String.mk ((s.data.map (fun c =>
    if uriUnreserved c then [c] else ((utf8Bytes c).map percentEncodeByte).flatten)).flatten)

/-- The generated-avatar URL used for demo users in auth.js. -/
def avatarUrl (name : String) : String :=
  "https://ui-avatars.com/api/?name=" ++ encodeURIComponentJs name ++
    "&background=4F46E5&color=fff"

/-- The observable outcome of one completeDemoLogin call: the storage
after the call, the inline error message shown by showAuthError when
validation failed, and the payload of the signed-in auth-state
notification (`handleAuthStateChange`) when one was emitted. -/
structure DemoLoginResult where
  store : LocalStore
  errorShown : Option String
  signedInEvent : Option DemoUser

/-- completeDemoLogin (auth.js): reads and trims the name and email
fields, validates them (name non-empty, email non-empty and containing
the at sign), and on failure shows an inline error and aborts with no
state change; on success persists the demo user under the
`volunteerConnectUser` key and emits the signed-in notification.  `now`
is the `Date.now()` read used for the demo uid. -/
def completeDemoLogin (nameValue emailValue : String) (now : Int) (ls : LocalStore) :
    DemoLoginResult :=
  let name := jsTrim nameValue
  let email := jsTrim emailValue
  if name = "" then
    { store := ls, errorShown := some "Please enter your name", signedInEvent := none }
  else if email = "" then
    { store := ls, errorShown := some "Please enter your email", signedInEvent := none }
  else if jsIncludes email '@' = false then
    { store := ls, errorShown := some "Please enter a valid email", signedInEvent := none }
  else
    let demoUser : DemoUser :=
      { uid := "demo-" ++ toString now, displayName := name, email := email,
        photoURL := avatarUrl name }
    { store := { ls with user := some demoUser }, errorShown := none,
      signedInEvent := some demoUser }

/-- The caller-supplied entry for HoursTracker.logHours (app.js). -/
structure HoursInput where
  organization : Option String
  date : Option String
  opportunityId : Option String
  hours : Option Rat
deriving DecidableEq, Repr

/-- An element of `AppState.hours` as built by HoursTracker.logHours. -/
structure AppHoursEntry where
  id : String
  organization : Option String
  date : Option String
  opportunityId : Option String
  hours : Option Rat
  logged : Int
  verified : Bool
deriving DecidableEq, Repr

/-- HoursTracker.logHours: builds the entry with a fresh id (from
generateId), the logged timestamp and verified false, appends it to
`AppState.hours` and returns it. -/
def HoursTracker.logHours (hoursState : List AppHoursEntry) (entry : HoursInput)
    (freshId : String) (now : Int) : AppHoursEntry × List AppHoursEntry :=
  let hoursEntry : AppHoursEntry :=
    { id := freshId, organization := entry.organization, date := entry.date,
      opportunityId := entry.opportunityId, hours := entry.hours,
      logged := now, verified := false }
  (hoursEntry, hoursState ++ [hoursEntry])

/-- The period argument of HoursTracker.getTotalHours. -/
inductive Period where
  | all
  | week
  | month
  | year
deriving DecidableEq, Repr

/-- HoursTracker.getTotalHours: for the `all` period sums every entry;
otherwise restricts to entries dated at or after the period start.  The
period-start date the code computes from the wall clock is passed in as
`startDate`; the sum counts `entry.hours || 0`, so entries without an
hours field contribute zero. -/
def HoursTracker.getTotalHours (hoursState : List AppHoursEntry) (period : Period)
    (startDate : String) : Rat :=
  let hs := match period with
    | Period.all => hoursState
    | _ => hoursState.filter (fun h =>
        match h.date with
        | some d => decide (startDate ≤ d)
        | none => false)
  hs.foldl (fun total e => total + e.hours.getD 0) 0

/-- The UTC components of an event date as rendered by the JavaScript
`toISOString` call inside formatDateForICS. -/
structure DateTimeUTC where
  year : Nat
  month : Nat
  day : Nat
  hour : Nat
  minute : Nat
  second : Nat
  millisecond : Nat
deriving DecidableEq, Repr

/-- Two-digit zero-padded decimal field of an ISO timestamp. -/
def pad2 (n : Nat) : String :=
  String.mk [Nat.digitChar (n / 10 % 10), Nat.digitChar (n % 10)]

/-- Three-digit zero-padded decimal field (milliseconds). -/
def pad3 (n : Nat) : String :=
  String.mk [Nat.digitChar (n / 100 % 10), Nat.digitChar (n / 10 % 10),
    Nat.digitChar (n % 10)]

/-- Four-digit zero-padded decimal field (year). -/
def pad4 (n : Nat) : String :=
  String.mk [Nat.digitChar (n / 1000 % 10), Nat.digitChar (n / 100 % 10),
    Nat.digitChar (n / 10 % 10), Nat.digitChar (n % 10)]

/-- JavaScript `Date.prototype.toISOString`: fixed-width zero-padded
rendering of the UTC components. -/
def toISOString (d : DateTimeUTC) : String :=
  pad4 d.year ++ "-" ++ pad2 d.month ++ "-" ++ pad2 d.day ++ "T" ++
    pad2 d.hour ++ ":" ++ pad2 d.minute ++ ":" ++ pad2 d.second ++ "." ++
    pad3 d.millisecond ++ "Z"

/-- The global regex replace removing every dash and colon, as in
`.replace(/[-:]/g, '')`. -/
def jsStripDashColon (s : String) : String :=
  String.mk (s.data.filter (fun c => !(c == '-' || c == ':')))

/-- `.split('.')[0]`: the text before the first dot. -/
def jsSplitDotHead (s : String) : String :=
  String.mk (s.data.takeWhile (fun c => c != '.'))

/-- formatDateForICS (app.js): the ISO timestamp with dashes and colons
removed, truncated before the fractional seconds, with a trailing Z. -/
def formatDateForICS (d : DateTimeUTC) : String :=
  jsSplitDotHead (jsStripDashColon (toISOString d)) ++ "Z"

/-- An element of `AppState.schedule` with the fields exportToICS reads
(id, date, title, description, location); the bookkeeping fields
(`created`, `reminders`) added by ScheduleManager.addEvent are not read
by the export and are omitted. -/
structure ScheduleItem where
  id : String
  date : DateTimeUTC
  title : String
  description : Option String
  location : Option String
deriving DecidableEq, Repr

/-- The fixed VCALENDAR preamble of the export. -/
def icsHeader : String :=
  "BEGIN:VCALENDAR\nVERSION:2.0\nPRODID:-//VolunteerConnect//EN\n"

/-- The text appended for one scheduled event inside the export loop:
one VEVENT block with UID, DTSTART, SUMMARY, DESCRIPTION and LOCATION
lines (missing description or location render as the empty string). -/
def eventBlock (e : ScheduleItem) : String :=
  "BEGIN:VEVENT\n" ++
    ("UID:" ++ e.id ++ "@volunteerconnect\n") ++
    ("DTSTART:" ++ formatDateForICS e.date ++ "\n") ++
    ("SUMMARY:" ++ e.title ++ "\n") ++
    ("DESCRIPTION:" ++ e.description.getD "" ++ "\n") ++
    ("LOCATION:" ++ e.location.getD "" ++ "\n") ++
    "END:VEVENT\n"

/-- ScheduleManager.exportToICS: the calendar text assembled by the
export (the file download it then triggers is outside the model). -/
def ScheduleManager.exportToICS (schedule : List ScheduleItem) : String :=
  schedule.foldl (fun ics e => ics ++ eventBlock e) icsHeader ++ "END:VCALENDAR"

/-- The structured context consumed by the letter templates in app.js;
every field is optional and falls back to a fixed placeholder phrase. -/
structure LetterContext where
  recipientName : Option String
  organization : Option String
  reason : Option String
  experience : Option String
  availability : Option String
  hours : Option String
  skills : Option String
  senderName : Option String
  impact : Option String
  purpose : Option String
  benefits : Option String
  additionalInfo : Option String
  previousAction : Option String
deriving DecidableEq, Repr

/-- AIAssistant.getApplicationTemplate. -/
def AIAssistant.getApplicationTemplate (ctx : LetterContext) : String :=
  "Dear " ++ ctx.recipientName.getD "Hiring Manager" ++ ",\n\n" ++
    "I am writing to express my interest in volunteering with " ++
    ctx.organization.getD "your organization" ++ ". " ++
    ctx.reason.getD "I am passionate about making a positive impact in my community." ++
    "\n\n" ++
    (match ctx.experience with
     | some e => "I have experience in: " ++ e
     | none => "") ++
    "\n\nI am available " ++ ctx.availability.getD "on weekends and evenings" ++
    " and am committed to contributing " ++ ctx.hours.getD "several hours" ++
    " per week.\n\n" ++
    (match ctx.skills with
     | some s => "My relevant skills include: " ++ s
     | none => "") ++
    "\n\nThank you for considering my application. I look forward to the opportunity to contribute to your mission.\n\nSincerely,\n" ++
    ctx.senderName.getD "[Your Name]"

/-- AIAssistant.getThankYouTemplate. -/
def AIAssistant.getThankYouTemplate (ctx : LetterContext) : String :=
  "Dear " ++ ctx.recipientName.getD "Team" ++ ",\n\n" ++
    "I wanted to express my heartfelt gratitude for the opportunity to volunteer with " ++
    ctx.organization.getD "your organization" ++ ".\n\n" ++
    ctx.experience.getD "The experience has been incredibly rewarding." ++ " " ++
    ctx.impact.getD "" ++
    "\n\nThank you for your guidance and support throughout my time volunteering.\n\nWith appreciation,\n" ++
    ctx.senderName.getD "[Your Name]"

/-- AIAssistant.getOutreachTemplate. -/
def AIAssistant.getOutreachTemplate (ctx : LetterContext) : String :=
  "Subject: Partnership Opportunity - Volunteer Program\n\nDear " ++
    ctx.recipientName.getD "Community Partner" ++ ",\n\n" ++
    "I am reaching out on behalf of " ++ ctx.organization.getD "our volunteer program" ++
    " to explore potential collaboration opportunities.\n\n" ++
    ctx.purpose.getD "We are looking to expand our volunteer initiatives and believe your organization would be an excellent partner." ++
    "\n\n" ++
    ctx.benefits.getD "Together, we could make a significant impact in our community." ++
    "\n\nWould you be available for a brief call to discuss this further?\n\nBest regards,\n" ++
    ctx.senderName.getD "[Your Name]"

/-- AIAssistant.getFollowUpTemplate. -/
def AIAssistant.getFollowUpTemplate (ctx : LetterContext) : String :=
  "Dear " ++ ctx.recipientName.getD "Volunteer Coordinator" ++ ",\n\n" ++
    "I hope this message finds you well. I am following up on my " ++
    ctx.previousAction.getD "previous application/inquiry" ++
    " regarding volunteer opportunities with " ++
    ctx.organization.getD "your organization" ++ ".\n\n" ++
    ctx.additionalInfo.getD "I remain very interested in contributing to your mission." ++
    "\n\nPlease let me know if there are any updates or if you need any additional information from me.\n\nThank you for your time.\n\nBest regards,\n" ++
    ctx.senderName.getD "[Your Name]"

/-- The value generateLetter hands back: either letter text produced by
one of the four templates, or — when the type tag names an inherited
member of Object.prototype — the inherited function or object that
JavaScript property access finds on the template table's prototype
chain. -/
inductive LetterResult where
  | text (s : String)
  | inherited (name : String)
deriving DecidableEq, Repr

/-- The property names every JavaScript object literal inherits from
Object.prototype; each is bound to a function (or, for the proto
accessor, an object), hence a truthy value. -/
def objectPrototypeMembers : List String :=
  ["constructor", "hasOwnProperty", "isPrototypeOf", "propertyIsEnumerable",
   "toLocaleString", "toString", "valueOf", "__proto__", "__defineGetter__",
   "__defineSetter__", "__lookupGetter__", "__lookupSetter__"]

/-- AIAssistant.generateLetter: `templates[type] || templates.application`
on the four-key template object literal.  JavaScript property access
checks the literal's own keys first and then the prototype chain, so the
four known tags select their instantiated template; a tag naming an
inherited Object.prototype member yields that inherited truthy value,
which the disjunction returns as-is; and every other tag reads undefined
and falls back to the application template.  The unused prompt built by
buildPrompt has no effect on the result and is omitted. -/
def AIAssistant.generateLetter (type : String) (ctx : LetterContext) : LetterResult :=
  if type = "application" then LetterResult.text (AIAssistant.getApplicationTemplate ctx)
  else if type = "thankyou" then LetterResult.text (AIAssistant.getThankYouTemplate ctx)
  else if type = "outreach" then LetterResult.text (AIAssistant.getOutreachTemplate ctx)
  else if type = "followup" then LetterResult.text (AIAssistant.getFollowUpTemplate ctx)
  else if type ∈ objectPrototypeMembers then LetterResult.inherited type
  else LetterResult.text (AIAssistant.getApplicationTemplate ctx)

/-- One user action in a local-mode browser session: an hours insert
(dbAddHoursEntry), a demo sign-in attempt (completeDemoLogin), or a
sign-out (dbSignOut). -/
inductive SessionOp where
  | insert (entry : Obj) (now : Int)
  | signIn (nameValue emailValue : String) (now : Int)
  | signOut

/-- Effect of one session action on the combined state. -/
def sessionStep (st : DbState) : SessionOp → DbState
  | SessionOp.insert entry now => (dbAddHoursEntry st entry now).2
  | SessionOp.signIn n e now => { st with store := (completeDemoLogin n e now st.store).store }
  | SessionOp.signOut => dbSignOut st

/-- Running a whole interleaving of session actions. -/
def sessionRun (st : DbState) (ops : List SessionOp) : DbState :=
  ops.foldl sessionStep st

/-- The hours rows a list of session actions inserts, in order, stamped
exactly as the local-mode branch of dbAddHoursEntry stamps them. -/
def stampedInserts : List SessionOp → List Obj
  | [] => []
  | SessionOp.insert e now :: rest =>
      (e.set "id" (JsVal.str (toString now))).set "created_at" (JsVal.num now) ::
        stampedInserts rest
  | SessionOp.signIn _ _ _ :: rest => stampedInserts rest
  | SessionOp.signOut :: rest => stampedInserts rest

/-- Number of hours inserts among the session actions. -/
def countInserts (ops : List SessionOp) : Nat :=
  ops.countP (fun o => match o with
    | SessionOp.insert _ _ => true
    | _ => false)

/-- The shape of the UTC timestamps formatDateForICS emits:
YYYYMMDDTHHMMSSZ — sixteen characters, digits except for the T separator
at index 8 and the trailing Z. -/
def IsIcsUtcTimestamp (s : String) : Prop :=
  s.data.length = 16 ∧ (∀ c ∈ s.data.take 8, c.isDigit = true) ∧
    (s.data.drop 8).take 1 = ['T'] ∧
    (∀ c ∈ (s.data.drop 9).take 6, c.isDigit = true) ∧
    s.data.drop 15 = ['Z']

/-- An empty hours-log filter object (no start or end date). -/
def noHoursFilters : HoursFilters :=
  { startDate := none, endDate := none }

/-- A browser storage with none of the five keys set. -/
def emptyLocalStore : LocalStore :=
  { user := none, profile := none, hoursLog := [], events := [], letters := [] }

/-- A backend with no rows in any table. -/
def emptyRemoteDb : RemoteDb :=
  { profiles := fun _ => none, hours_log := [], events := [], letters := [],
    opportunities := [] }

/-- Remote mode with no authenticated user: the configuration the
unauthenticated-access checks exercise. -/
def noUserRemoteState : DbState :=
  { dbInitialized := true, hasClient := true, authUser := none,
    store := emptyLocalStore, remote := emptyRemoteDb, remoteError := false,
    staticOpps := none }

/-- Remote mode with an authenticated user `user-1` and a healthy
backend. -/
def authRemoteState : DbState :=
  { dbInitialized := true, hasClient := true, authUser := some { id := "user-1" },
    store := emptyLocalStore, remote := emptyRemoteDb, remoteError := false,
    staticOpps := none }

/-- A caller-supplied row that tries to smuggle in a foreign owner id. -/
def intruderEntry : Obj :=
  Obj.ofList [("user_id", JsVal.str "intruder"), ("organization", JsVal.str "Food Bank")]

/-- A stored profile with a name and an `updated_at` stamp of 5. -/
def profileP0 : Obj :=
  Obj.ofList [("name", JsVal.str "Jane"), ("updated_at", JsVal.num 5)]

/-- A profile field update setting a city. -/
def profileUpdateX0 : Obj :=
  Obj.ofList [("city", JsVal.str "Springfield")]

/-- Local mode with profileP0 already stored. -/
def localProfileState : DbState :=
  { dbInitialized := false, hasClient := false, authUser := none,
    store := { emptyLocalStore with profile := some profileP0 },
    remote := emptyRemoteDb, remoteError := false, staticOpps := none }

/-- Local mode with empty storage: the startup state of a demo-mode
browser session. -/
def initialLocalState : DbState :=
  { dbInitialized := false, hasClient := false, authUser := none,
    store := emptyLocalStore, remote := emptyRemoteDb, remoteError := false,
    staticOpps := none }

/-- A first concrete hours entry. -/
def entryA : Obj :=
  Obj.ofList [("organization", JsVal.str "Food Bank"), ("hours", JsVal.num 4)]

/-- A second concrete hours entry. -/
def entryB : Obj :=
  Obj.ofList [("organization", JsVal.str "Library"), ("hours", JsVal.num 2)]

/-- A concrete interleaving: insert, demo sign-in, insert, sign-out. -/
def sampleOps : List SessionOp :=
  [SessionOp.insert entryA 100, SessionOp.signIn "Jane" "jane@x.com" 101,
   SessionOp.insert entryB 102, SessionOp.signOut]

/-- A stored hours row with id 1. -/
def rowId1 : Obj :=
  Obj.ofList [("id", JsVal.str "1"), ("organization", JsVal.str "Food Bank")]

/-- A stored hours row with id 2. -/
def rowId2 : Obj :=
  Obj.ofList [("id", JsVal.str "2"), ("organization", JsVal.str "Library")]

/-- Local mode with two hours rows already stored. -/
def twoRowsLocalState : DbState :=
  { dbInitialized := false, hasClient := false, authUser := none,
    store := { emptyLocalStore with hoursLog := [rowId1, rowId2] },
    remote := emptyRemoteDb, remoteError := false, staticOpps := none }

/-- The hours entry of the scenario in the spec: Food Bank, 2024-02-15,
4 hours. -/
def foodBankEntry : HoursInput :=
  { organization := some "Food Bank", date := some "2024-02-15",
    opportunityId := none, hours := some 4 }

/-- An active virtual education opportunity. -/
def opp1 : Opp :=
  { id := "o1", is_active := true, cause_areas := ["education", "youth"],
    is_virtual := true, updated_at := 10 }

/-- An inactive opportunity. -/
def opp2 : Opp :=
  { id := "o2", is_active := false, cause_areas := ["education"],
    is_virtual := true, updated_at := 20 }

/-- An active in-person environment opportunity. -/
def opp3 : Opp :=
  { id := "o3", is_active := true, cause_areas := ["environment"],
    is_virtual := false, updated_at := 30 }

/-- A concrete opportunities filter: education cause area, virtual only,
limit 1. -/
def oppFilters0 : OppFilters :=
  { causeArea := some "education", isVirtual := some true, limit := some 1 }

/-- Remote mode with three opportunity rows and a healthy backend. -/
def oppRemoteState : DbState :=
  { dbInitialized := true, hasClient := true, authUser := none,
    store := emptyLocalStore,
    remote := { emptyRemoteDb with opportunities := [opp1, opp2, opp3] },
    remoteError := false, staticOpps := some [opp2] }

/-- Local mode with a bundled opportunities snapshot available. -/
def fallbackOppState : DbState :=
  { dbInitialized := false, hasClient := false, authUser := none,
    store := emptyLocalStore, remote := emptyRemoteDb, remoteError := false,
    staticOpps := some [opp3] }

/-- A concrete schedule event date. -/
def sampleDate1 : DateTimeUTC :=
  { year := 2024, month := 3, day := 15, hour := 9, minute := 30, second := 0,
    millisecond := 0 }

/-- A second concrete schedule event date. -/
def sampleDate2 : DateTimeUTC :=
  { year := 2024, month := 4, day := 2, hour := 14, minute := 0, second := 30,
    millisecond := 250 }

/-- A concrete scheduled event. -/
def sampleEvent1 : ScheduleItem :=
  { id := "ev1", date := sampleDate1, title := "Beach Cleanup",
    description := some "Monthly shoreline cleanup", location := some "Pier 3" }

/-- A second concrete scheduled event with optional fields absent. -/
def sampleEvent2 : ScheduleItem :=
  { id := "ev2", date := sampleDate2, title := "Food Drive",
    description := none, location := none }

/-- A letter context with every optional field absent. -/
def emptyLetterContext : LetterContext :=
  { recipientName := none, organization := none, reason := none,
    experience := none, availability := none, hours := none, skills := none,
    senderName := none, impact := none, purpose := none, benefits := none,
    additionalInfo := none, previousAction := none }

theorem mem_of_mem_trimChars {c : Char} {l : List Char} (h : c ∈ trimChars l) :
    c ∈ l := by
  unfold trimChars at h
  rw [List.mem_reverse] at h
  have h2 := List.Sublist.mem h (List.dropWhile_sublist _)
  rw [List.mem_reverse] at h2
  exact List.Sublist.mem h2 (List.dropWhile_sublist _)

theorem jsIncludes_of_trim {s : String} {c : Char}
    (h : jsIncludes (jsTrim s) c = true) : jsIncludes s c = true := by
  unfold jsIncludes at h ⊢
  unfold jsTrim at h
  have hm : c ∈ trimChars s.data := by simpa using h
  have hmem : c ∈ s.data := mem_of_mem_trimChars hm
  simpa using hmem

/-- C4: in local mode, starting from a state with no prior hours entries,
inserting the hours entry organization Food Bank, date 2024-02-15, hours
4 (HoursTracker.logHours into the application hours state) and then
calling getTotalHours with the `all` period returns exactly 4. -/
theorem logHours_then_getTotalHours_all :
    HoursTracker.getTotalHours
        (HoursTracker.logHours [] foodBankEntry "1708000000000" 1708000000000).2
        Period.all "" = 4 := by
  norm_num [HoursTracker.getTotalHours, HoursTracker.logHours, foodBankEntry]

/-- C10 counterexample: the unknown tag toString does not return the
application template — JavaScript property access finds the inherited
Object.prototype.toString function, which is truthy, so generateLetter
returns that inherited value as-is. -/
theorem generateLetter_toString_not_application :
    AIAssistant.generateLetter "toString" emptyLetterContext =
        LetterResult.inherited "toString"
  ∧ AIAssistant.generateLetter "toString" emptyLetterContext ≠
        LetterResult.text (AIAssistant.getApplicationTemplate emptyLetterContext) := by
  refine ⟨rfl, ?_⟩
  intro h
  have h2 : LetterResult.inherited "toString" =
      LetterResult.text (AIAssistant.getApplicationTemplate emptyLetterContext) := h
  exact LetterResult.noConfusion h2

/-- C10 (amended): generateLetter is deterministic and total: each of the
four known tags returns its corresponding instantiated template; an
unknown tag returns the application template unless it names an
inherited Object.prototype member (constructor, toString, hasOwnProperty
and the like), in which case property lookup yields the inherited truthy
value and generateLetter returns it instead of a template. -/
theorem generateLetter_prototype_dispatch (ty : String) (ctx : LetterContext) :
    AIAssistant.generateLetter "application" ctx =
        LetterResult.text (AIAssistant.getApplicationTemplate ctx)
  ∧ AIAssistant.generateLetter "thankyou" ctx =
        LetterResult.text (AIAssistant.getThankYouTemplate ctx)
  ∧ AIAssistant.generateLetter "outreach" ctx =
        LetterResult.text (AIAssistant.getOutreachTemplate ctx)
  ∧ AIAssistant.generateLetter "followup" ctx =
        LetterResult.text (AIAssistant.getFollowUpTemplate ctx)
  ∧ (ty ≠ "application" → ty ≠ "thankyou" → ty ≠ "outreach" → ty ≠ "followup" →
      ty ∉ objectPrototypeMembers →
      AIAssistant.generateLetter ty ctx =
        LetterResult.text (AIAssistant.getApplicationTemplate ctx))
  ∧ (ty ∈ objectPrototypeMembers →
      AIAssistant.generateLetter ty ctx = LetterResult.inherited ty) := by
  refine ⟨rfl, ?_, ?_, ?_, ?_, ?_⟩
  · simp [AIAssistant.generateLetter]
  · simp [AIAssistant.generateLetter]
  · simp [AIAssistant.generateLetter]
  · intro h1 h2 h3 h4 h5
    simp [AIAssistant.generateLetter, h1, h2, h3, h4, h5]
  · intro hm
    have h1 : ty ≠ "application" := by rintro rfl; revert hm; decide
    have h2 : ty ≠ "thankyou" := by rintro rfl; revert hm; decide
    have h3 : ty ≠ "outreach" := by rintro rfl; revert hm; decide
    have h4 : ty ≠ "followup" := by rintro rfl; revert hm; decide
    simp [AIAssistant.generateLetter, h1, h2, h3, h4, hm]

theorem generateLetter_prototype_dispatch_witness :
    AIAssistant.generateLetter "recommendation" emptyLetterContext =
        LetterResult.text (AIAssistant.getApplicationTemplate emptyLetterContext)
  ∧ AIAssistant.generateLetter "constructor" emptyLetterContext =
        LetterResult.inherited "constructor" :=
  ⟨(generateLetter_prototype_dispatch "recommendation" emptyLetterContext).2.2.2.2.1
     (by decide) (by decide) (by decide) (by decide) (by decide),
   (generateLetter_prototype_dispatch "constructor" emptyLetterContext).2.2.2.2.2
     (by decide)⟩

/-- C7: a demo sign-in attempt with a malformed input (empty name, empty
email, or email without an at sign) shows an inline error and aborts with
no state change: the demo-user storage key is not written and no
signed-in notification is emitted.  Conversely a user is persisted or a
signed-in notification emitted only when both fields are non-empty and
the email contains the at sign. -/
theorem completeDemoLogin_validation (nameValue emailValue : String) (now : Int)
    (ls : LocalStore) :
    ((nameValue = "" ∨ emailValue = "" ∨ jsIncludes emailValue '@' = false) →
      (completeDemoLogin nameValue emailValue now ls).errorShown.isSome = true ∧
      (completeDemoLogin nameValue emailValue now ls).store = ls ∧
      (completeDemoLogin nameValue emailValue now ls).signedInEvent = none)
  ∧ (((completeDemoLogin nameValue emailValue now ls).signedInEvent.isSome = true ∨
        (completeDemoLogin nameValue emailValue now ls).store ≠ ls) →
      nameValue ≠ "" ∧ emailValue ≠ "" ∧ jsIncludes emailValue '@' = true) := by
  constructor
  · intro h
    unfold completeDemoLogin
    by_cases h1 : jsTrim nameValue = ""
    · simp [h1]
    · by_cases h2 : jsTrim emailValue = ""
      · simp [h1, h2]
      · by_cases h3 : jsIncludes (jsTrim emailValue) '@' = false
        · simp [h1, h2, h3]
        · exfalso
          rcases h with hn | he | hc
          · exact h1 (by rw [hn]; rfl)
          · exact h2 (by rw [he]; rfl)
          · have ht : jsIncludes (jsTrim emailValue) '@' = true := by
              cases hh : jsIncludes (jsTrim emailValue) '@'
              · exact absurd hh h3
              · rfl
            have hraw := jsIncludes_of_trim ht
            rw [hraw] at hc
            exact Bool.noConfusion hc
  · intro h
    by_cases h1 : jsTrim nameValue = ""
    · exfalso
      unfold completeDemoLogin at h
      simp [h1] at h
    · by_cases h2 : jsTrim emailValue = ""
      · exfalso
        unfold completeDemoLogin at h
        simp [h1, h2] at h
      · by_cases h3 : jsIncludes (jsTrim emailValue) '@' = false
        · exfalso
          unfold completeDemoLogin at h
          simp [h1, h2, h3] at h
        · have ht : jsIncludes (jsTrim emailValue) '@' = true := by
            cases hh : jsIncludes (jsTrim emailValue) '@'
            · exact absurd hh h3
            · rfl
          refine ⟨?_, ?_, jsIncludes_of_trim ht⟩
          · intro hn
            exact h1 (by rw [hn]; rfl)
          · intro he
            exact h2 (by rw [he]; rfl)

theorem completeDemoLogin_validation_witness :
    (completeDemoLogin "" "jane@x.com" 0 emptyLocalStore).errorShown.isSome = true ∧
    (completeDemoLogin "" "jane@x.com" 0 emptyLocalStore).store = emptyLocalStore ∧
    (completeDemoLogin "" "jane@x.com" 0 emptyLocalStore).signedInEvent = none :=
  (completeDemoLogin_validation "" "jane@x.com" 0 emptyLocalStore).1 (Or.inl rfl)

/-- C1: in remote mode, for every authenticated user and every
caller-supplied row, the per-user inserts (dbAddHoursEntry, dbAddEvent,
dbSaveLetter) submit a payload whose user_id equals the session user's
id: the payload appended to the table is the row with user_id overwritten
by the session id, so a caller-provided owner value never reaches the
backend payload (last conjunct: the payload's user_id field is the
session id whatever the row contained). -/
theorem remoteInsert_stamps_user_id (st : DbState) (u : RemoteUser) (r : Obj) (now : Int)
    (hA : isDatabaseAvailable st = true)
    (hU : st.authUser = some u)
    (hE : st.remoteError = false) :
    ((dbAddHoursEntry st r now).2.remote.hours_log =
        st.remote.hours_log ++ [r.set "user_id" (JsVal.str u.id)]
     ∧ (dbAddHoursEntry st r now).1 = Except.ok (r.set "user_id" (JsVal.str u.id)))
  ∧ ((dbAddEvent st r now).2.remote.events =
        st.remote.events ++ [r.set "user_id" (JsVal.str u.id)]
     ∧ (dbAddEvent st r now).1 = Except.ok (r.set "user_id" (JsVal.str u.id)))
  ∧ ((dbSaveLetter st r now).2.remote.letters =
        st.remote.letters ++ [r.set "user_id" (JsVal.str u.id)]
     ∧ (dbSaveLetter st r now).1 = Except.ok (r.set "user_id" (JsVal.str u.id)))
  ∧ Obj.set r "user_id" (JsVal.str u.id) "user_id" = some (JsVal.str u.id) := by
  refine ⟨⟨?_, ?_⟩, ⟨?_, ?_⟩, ⟨?_, ?_⟩, ?_⟩ <;>
    simp [dbAddHoursEntry, dbAddEvent, dbSaveLetter, dbGetCurrentUserRemote,
      hA, hU, hE, Obj.set]

theorem remoteInsert_stamps_user_id_witness :
    (dbAddHoursEntry authRemoteState intruderEntry 7).2.remote.hours_log =
      authRemoteState.remote.hours_log ++ [intruderEntry.set "user_id" (JsVal.str "user-1")]
  ∧ Obj.set intruderEntry "user_id" (JsVal.str "user-1") "user_id" =
      some (JsVal.str "user-1") :=
  ⟨(remoteInsert_stamps_user_id authRemoteState { id := "user-1" } intruderEntry 7
      rfl rfl rfl).1.1,
   (remoteInsert_stamps_user_id authRemoteState { id := "user-1" } intruderEntry 7
      rfl rfl rfl).2.2.2⟩

/-- C2 counterexample: in remote mode with no authenticated user,
dbGetHoursLog does not fail with the unauthenticated condition — it
succeeds, returning the empty list. -/
theorem getHoursLog_no_user_succeeds :
    dbGetHoursLog noUserRemoteState noHoursFilters = Except.ok []
  ∧ (dbGetHoursLog noUserRemoteState noHoursFilters).isOk = true :=
  ⟨rfl, rfl⟩

/-- C2 (amended): in remote mode with no authenticated user, the per-user
update, delete and insert operations fail with the unauthenticated
condition and leave the whole state (hence the backend tables) unchanged;
the per-user list operations and dbGetProfile instead succeed with an
empty result (empty list, or null profile) without reaching the backend,
rather than failing. -/
theorem remote_no_user_behavior (st : DbState)
    (hA : isDatabaseAvailable st = true) (hU : st.authUser = none) :
    (∀ f, dbGetHoursLog st f = Except.ok [])
  ∧ (∀ f today, dbGetEvents st f today = Except.ok [])
  ∧ (∀ f, dbGetLetters st f = Except.ok [])
  ∧ dbGetProfile st = none
  ∧ (∀ i, dbDeleteHoursEntry st i = (Except.error DbError.unauthenticated, st))
  ∧ (∀ i, dbDeleteEvent st i = (Except.error DbError.unauthenticated, st))
  ∧ (∀ x now, dbUpdateProfile st x now = (Except.error DbError.unauthenticated, st))
  ∧ (∀ e now, dbAddHoursEntry st e now = (Except.error DbError.unauthenticated, st))
  ∧ (∀ e now, dbAddEvent st e now = (Except.error DbError.unauthenticated, st))
  ∧ (∀ l now, dbSaveLetter st l now = (Except.error DbError.unauthenticated, st)) := by
  refine ⟨?_, ?_, ?_, ?_, ?_, ?_, ?_, ?_, ?_, ?_⟩ <;>
    intros <;>
    simp [dbGetHoursLog, dbGetEvents, dbGetLetters, dbGetProfile, dbDeleteHoursEntry,
      dbDeleteEvent, dbUpdateProfile, dbAddHoursEntry, dbAddEvent, dbSaveLetter,
      dbGetCurrentUserRemote, hA, hU]

theorem remote_no_user_behavior_witness :
    dbGetEvents noUserRemoteState { upcoming := false } "2024-01-01" = Except.ok []
  ∧ dbUpdateProfile noUserRemoteState profileUpdateX0 9 =
      (Except.error DbError.unauthenticated, noUserRemoteState)
  ∧ dbDeleteHoursEntry noUserRemoteState "1" =
      (Except.error DbError.unauthenticated, noUserRemoteState) :=
  ⟨(remote_no_user_behavior noUserRemoteState rfl rfl).2.1 { upcoming := false } "2024-01-01",
   (remote_no_user_behavior noUserRemoteState rfl rfl).2.2.2.2.2.2.1 profileUpdateX0 9,
   (remote_no_user_behavior noUserRemoteState rfl rfl).2.2.2.2.1 "1"⟩

/-- C3: in either mode, when a prior profile p is stored (and its
updated_at stamp t0 is older than the wall clock now), updateProfile(x)
returns and persists exactly p merged with x — fields of x override
fields of p and every other field of p is unchanged — with updated_at
refreshed to now, so a subsequent getProfile returns that object and its
updated_at is strictly greater than p's. -/
theorem updateProfile_merge_refreshes (st : DbState) (x : Obj) (now t0 : Int) (p : Obj)
    (hp : dbGetProfile st = some p)
    (ht : p "updated_at" = some (JsVal.num t0))
    (hlt : t0 < now) :
    dbGetProfile (dbUpdateProfile st x now).2 =
        some ((p.merge x).set "updated_at" (JsVal.num now))
  ∧ (dbUpdateProfile st x now).1 =
        Except.ok ((p.merge x).set "updated_at" (JsVal.num now))
  ∧ (∀ k, k ≠ "updated_at" →
        Obj.set (p.merge x) "updated_at" (JsVal.num now) k = Obj.merge p x k)
  ∧ Obj.set (p.merge x) "updated_at" (JsVal.num now) "updated_at" = some (JsVal.num now)
  ∧ t0 < now := by
  by_cases hAv : isDatabaseAvailable st = false
  · have hAv' : (st.dbInitialized && st.hasClient) = false := by
      simpa [isDatabaseAvailable] using hAv
    have hpl : st.store.profile = some p := by
      simpa [dbGetProfile, isDatabaseAvailable, hAv'] using hp
    refine ⟨?_, ?_, ?_, ?_, hlt⟩
    · simp [dbUpdateProfile, dbGetProfile, isDatabaseAvailable, hAv', hpl]
    · simp [dbUpdateProfile, isDatabaseAvailable, hAv', hpl]
    · intro k hk
      simp [Obj.set, hk]
    · simp [Obj.set]
  · have hA2 : isDatabaseAvailable st = true := by
      cases h : isDatabaseAvailable st
      · exact absurd h hAv
      · rfl
    have hflags : st.dbInitialized = true ∧ st.hasClient = true := by
      simpa [isDatabaseAvailable, Bool.and_eq_true] using hA2
    rw [dbGetProfile, if_neg hAv] at hp
    unfold dbGetCurrentUserRemote at hp
    cases hu : st.authUser with
    | none =>
      rw [hu] at hp
      exact absurd hp (by simp)
    | some u =>
      rw [hu] at hp
      by_cases hre : st.remoteError = true
      · simp [hre] at hp
      · have hre' : st.remoteError = false := by
          simpa using hre
        simp [hre'] at hp
        refine ⟨?_, ?_, ?_, ?_, hlt⟩
        · simp [dbUpdateProfile, dbGetProfile, dbGetCurrentUserRemote, isDatabaseAvailable,
            hflags.1, hflags.2, hu, hre', hp]
        · simp [dbUpdateProfile, dbGetCurrentUserRemote, isDatabaseAvailable,
            hflags.1, hflags.2, hu, hre', hp]
        · intro k hk
          simp [Obj.set, hk]
        · simp [Obj.set]

theorem updateProfile_merge_refreshes_witness :
    dbGetProfile (dbUpdateProfile localProfileState profileUpdateX0 9).2 =
        some ((profileP0.merge profileUpdateX0).set "updated_at" (JsVal.num 9))
  ∧ Obj.set (profileP0.merge profileUpdateX0) "updated_at" (JsVal.num 9) "updated_at" =
        some (JsVal.num 9) :=
  ⟨(updateProfile_merge_refreshes localProfileState profileUpdateX0 9 5 profileP0
      rfl rfl (by norm_num)).1,
   (updateProfile_merge_refreshes localProfileState profileUpdateX0 9 5 profileP0
      rfl rfl (by norm_num)).2.2.2.1⟩

/-- C6: in local mode, deleting an hours entry by id keeps exactly the
stored rows whose id differs from the argument, preserving their order
and content (the stored log and a subsequent list both equal the filter
of the prior log), a row survives precisely when it was stored and its
id differs, and when no stored row has the id the operation leaves the
storage unchanged rather than erring. -/
theorem deleteHoursEntry_precise (st : DbState) (i : String)
    (hA : isDatabaseAvailable st = false) :
    (dbDeleteHoursEntry st i).1 = Except.ok ()
  ∧ (dbDeleteHoursEntry st i).2.store.hoursLog =
      st.store.hoursLog.filter (fun h => decide (h "id" ≠ some (JsVal.str i)))
  ∧ dbGetHoursLog (dbDeleteHoursEntry st i).2 noHoursFilters =
      Except.ok (st.store.hoursLog.filter (fun h => decide (h "id" ≠ some (JsVal.str i))))
  ∧ (∀ h, h ∈ (dbDeleteHoursEntry st i).2.store.hoursLog ↔
        (h ∈ st.store.hoursLog ∧ h "id" ≠ some (JsVal.str i)))
  ∧ ((∀ h ∈ st.store.hoursLog, h "id" ≠ some (JsVal.str i)) →
      (dbDeleteHoursEntry st i).2.store = st.store) := by
  have hAv' : (st.dbInitialized && st.hasClient) = false := by
    simpa [isDatabaseAvailable] using hA
  refine ⟨?_, ?_, ?_, ?_, ?_⟩
  · simp [dbDeleteHoursEntry, isDatabaseAvailable, hAv']
  · simp [dbDeleteHoursEntry, isDatabaseAvailable, hAv']
  · simp [dbDeleteHoursEntry, dbGetHoursLog, localGetHoursLog, isDatabaseAvailable,
      hAv', noHoursFilters]
  · intro h
    simp [dbDeleteHoursEntry, isDatabaseAvailable, hAv', List.mem_filter]
  · intro hnone
    have hfix : st.store.hoursLog.filter (fun h => !decide (h "id" = some (JsVal.str i))) =
        st.store.hoursLog :=
      List.filter_eq_self.mpr (fun a ha => by simpa using hnone a ha)
    simp [dbDeleteHoursEntry, isDatabaseAvailable, hAv', hfix]

theorem deleteHoursEntry_precise_witness :
    (dbDeleteHoursEntry twoRowsLocalState "1").1 = Except.ok ()
  ∧ (dbDeleteHoursEntry twoRowsLocalState "1").2.store.hoursLog =
      twoRowsLocalState.store.hoursLog.filter
        (fun h => decide (h "id" ≠ some (JsVal.str "1")))
  ∧ (dbDeleteHoursEntry twoRowsLocalState "99").2.store = twoRowsLocalState.store :=
  ⟨(deleteHoursEntry_precise twoRowsLocalState "1" rfl).1,
   (deleteHoursEntry_precise twoRowsLocalState "1" rfl).2.1,
   (deleteHoursEntry_precise twoRowsLocalState "99" rfl).2.2.2.2 (by decide)⟩

theorem completeDemoLogin_store_hoursLog (n e : String) (now : Int) (ls : LocalStore) :
    (completeDemoLogin n e now ls).store.hoursLog = ls.hoursLog := by
  unfold completeDemoLogin
  by_cases h1 : jsTrim n = ""
  · simp [h1]
  · by_cases h2 : jsTrim e = ""
    · simp [h1, h2]
    · by_cases h3 : jsIncludes (jsTrim e) '@' = false
      · simp [h1, h2, h3]
      · simp [h1, h2, h3]

theorem sessionRun_flags_hoursLog (ops : List SessionOp) (st : DbState)
    (hA : isDatabaseAvailable st = false) :
    isDatabaseAvailable (sessionRun st ops) = false ∧
    (sessionRun st ops).store.hoursLog = st.store.hoursLog ++ stampedInserts ops := by
  induction ops generalizing st with
  | nil => exact ⟨hA, by simp [sessionRun, stampedInserts]⟩
  | cons op rest ih =>
    have hstep : sessionRun st (op :: rest) = sessionRun (sessionStep st op) rest := rfl
    have hA' : (st.dbInitialized && st.hasClient) = false := by
      simpa [isDatabaseAvailable] using hA
    cases op with
    | insert entry now =>
      have h1 : isDatabaseAvailable (sessionStep st (SessionOp.insert entry now)) = false := by
        simp [sessionStep, dbAddHoursEntry, isDatabaseAvailable, hA']
      have h2 : (sessionStep st (SessionOp.insert entry now)).store.hoursLog =
          st.store.hoursLog ++
            [(entry.set "id" (JsVal.str (toString now))).set "created_at" (JsVal.num now)] := by
        simp [sessionStep, dbAddHoursEntry, isDatabaseAvailable, hA']
      obtain ⟨ha, hl⟩ := ih (sessionStep st (SessionOp.insert entry now)) h1
      rw [hstep]
      refine ⟨ha, ?_⟩
      rw [hl, h2, stampedInserts]
      simp
    | signIn n e now =>
      have h1 : isDatabaseAvailable (sessionStep st (SessionOp.signIn n e now)) = false := by
        simp [sessionStep, isDatabaseAvailable, hA']
      have h2 : (sessionStep st (SessionOp.signIn n e now)).store.hoursLog =
          st.store.hoursLog := by
        simp [sessionStep, completeDemoLogin_store_hoursLog]
      obtain ⟨ha, hl⟩ := ih (sessionStep st (SessionOp.signIn n e now)) h1
      rw [hstep]
      exact ⟨ha, by rw [hl, h2, stampedInserts]⟩
    | signOut =>
      have h1 : isDatabaseAvailable (sessionStep st SessionOp.signOut) = false := by
        simp [sessionStep, dbSignOut, isDatabaseAvailable, hA']
      have h2 : (sessionStep st SessionOp.signOut).store.hoursLog =
          st.store.hoursLog := by
        simp [sessionStep, dbSignOut, isDatabaseAvailable, hA']
      obtain ⟨ha, hl⟩ := ih (sessionStep st SessionOp.signOut) h1
      rw [hstep]
      exact ⟨ha, by rw [hl, h2, stampedInserts]⟩

theorem stampedInserts_length (ops : List SessionOp) :
    (stampedInserts ops).length = countInserts ops := by
  induction ops with
  | nil => rfl
  | cons op rest ih =>
    cases op <;> simp [stampedInserts, countInserts, List.countP_cons, ih]

/-- C5: in local mode, starting from an empty hours log, any interleaving
of hours inserts, demo sign-ins and sign-outs within the same browser
storage leaves exactly the inserted rows in the log: a subsequent list
returns precisely the stamped inserted entries, in order, and their
number equals the number of inserts — sign-out removes neither rows nor
another user's rows can appear. -/
theorem localMode_session_count (st : DbState) (ops : List SessionOp)
    (hA : isDatabaseAvailable st = false) (h0 : st.store.hoursLog = []) :
    dbGetHoursLog (sessionRun st ops) noHoursFilters = Except.ok (stampedInserts ops)
  ∧ (stampedInserts ops).length = countInserts ops := by
  obtain ⟨ha, hl⟩ := sessionRun_flags_hoursLog ops st hA
  have ha' : ((sessionRun st ops).dbInitialized && (sessionRun st ops).hasClient) = false := by
    simpa [isDatabaseAvailable] using ha
  constructor
  · simp [dbGetHoursLog, localGetHoursLog, isDatabaseAvailable, ha', noHoursFilters, hl, h0]
  · exact stampedInserts_length ops

theorem localMode_session_count_witness :
    dbGetHoursLog (sessionRun initialLocalState sampleOps) noHoursFilters =
        Except.ok (stampedInserts sampleOps)
  ∧ (stampedInserts sampleOps).length = countInserts sampleOps :=
  localMode_session_count initialLocalState sampleOps rfl rfl

theorem mem_limitTake {l : List Opp} {o : Opp} (fl : Option Nat)
    (h : o ∈ (match fl with | some n => if n = 0 then l else l.take n | none => l)) :
    o ∈ l := by
  cases fl with
  | none => exact h
  | some n =>
    by_cases hn : n = 0
    · simpa [hn] using h
    · have h2 : o ∈ (if n = 0 then l else l.take n) := h
      rw [if_neg hn] at h2
      exact List.take_subset _ _ h2

theorem mem_virtualClause {l : List Opp} {o : Opp} (fv : Option Bool)
    (h : o ∈ (match fv with
              | some b => l.filter (fun (x : Opp) => x.is_virtual = b)
              | none => l)) :
    o ∈ l ∧ ∀ b, fv = some b → o.is_virtual = b := by
  cases fv with
  | none => exact ⟨h, fun b hb => Option.noConfusion hb⟩
  | some b0 =>
    have h2 : o ∈ l.filter (fun x => decide (x.is_virtual = b0)) := h
    rw [List.mem_filter] at h2
    refine ⟨h2.1, ?_⟩
    intro b hb
    injection hb with hb0
    subst hb0
    exact of_decide_eq_true h2.2

theorem mem_causeClause {l : List Opp} {o : Opp} (fc : Option String)
    (h : o ∈ (match fc with
              | some c => l.filter (fun (x : Opp) => x.cause_areas.contains c)
              | none => l)) :
    o ∈ l ∧ ∀ c, fc = some c → o.cause_areas.contains c = true := by
  cases fc with
  | none => exact ⟨h, fun c hc => Option.noConfusion hc⟩
  | some c0 =>
    have h2 : o ∈ l.filter (fun x => x.cause_areas.contains c0) := h
    rw [List.mem_filter] at h2
    refine ⟨h2.1, ?_⟩
    intro c hc
    injection hc with hc0
    subst hc0
    exact h2.2

theorem mem_oppQuery {opps : List Opp} {f : OppFilters} {o : Opp}
    (ho : o ∈ oppQuery opps f) :
    o ∈ opps ∧ o.is_active = true
    ∧ (∀ c, f.causeArea = some c → o.cause_areas.contains c = true)
    ∧ (∀ b, f.isVirtual = some b → o.is_virtual = b) := by
  have h1 := mem_limitTake f.limit ho
  rw [List.mem_mergeSort] at h1
  have h2 := mem_virtualClause f.isVirtual h1
  have h3 := mem_causeClause f.causeArea h2.1
  have h4 : o ∈ opps.filter (fun x => x.is_active) := h3.1
  rw [List.mem_filter] at h4
  exact ⟨h4.1, h4.2, h3.2, h2.2⟩

theorem oppQuery_length_le (opps : List Opp) (f : OppFilters) (n : Nat)
    (hn : f.limit = some n) (h0 : n ≠ 0) :
    (oppQuery opps f).length ≤ n := by
  unfold oppQuery
  rw [hn]
  dsimp only
  rw [if_neg h0, List.length_take]
  exact inf_le_left

/-- C8: getOpportunities consults no session user (its result is the same
for every auth state); when the remote client is available and the query
succeeds it returns exactly the query over the opportunities table —
every returned row is active and matches the optional cause-area and
virtual-flag filters, and a present nonzero result-count limit bounds the
length; and when remote mode is unavailable or the backend errs it falls
back to the bundled static snapshot (empty when even that failed) instead
of surfacing an error. -/
theorem getOpportunities_public_filter_fallback (st : DbState) (f : OppFilters) :
    (∀ u, dbGetOpportunities { st with authUser := u } f = dbGetOpportunities st f)
  ∧ (isDatabaseAvailable st = true → st.remoteError = false →
       (dbGetOpportunities st f = oppQuery st.remote.opportunities f
        ∧ (∀ o ∈ dbGetOpportunities st f,
             o.is_active = true
             ∧ (∀ c, f.causeArea = some c → o.cause_areas.contains c = true)
             ∧ (∀ b, f.isVirtual = some b → o.is_virtual = b))
        ∧ (∀ n, f.limit = some n → n ≠ 0 → (dbGetOpportunities st f).length ≤ n)))
  ∧ (¬ (isDatabaseAvailable st = true ∧ st.remoteError = false) →
       dbGetOpportunities st f = st.staticOpps.getD []) := by
  refine ⟨?_, ?_, ?_⟩
  · intro u
    rfl
  · intro hA hE
    have heq : dbGetOpportunities st f = oppQuery st.remote.opportunities f := by
      rw [dbGetOpportunities, if_pos ⟨hA, hE⟩]
    refine ⟨heq, ?_, ?_⟩
    · intro o ho
      rw [heq] at ho
      obtain ⟨_, h2, h3, h4⟩ := mem_oppQuery ho
      exact ⟨h2, h3, h4⟩
    · intro n hn h0
      rw [heq]
      exact oppQuery_length_le _ _ _ hn h0
  · intro hno
    rw [dbGetOpportunities, if_neg hno]
    rcases hs : st.staticOpps with _ | opps <;> simp [hs]

theorem getOpportunities_public_filter_fallback_witness :
    dbGetOpportunities oppRemoteState oppFilters0 =
        oppQuery oppRemoteState.remote.opportunities oppFilters0
  ∧ (dbGetOpportunities oppRemoteState oppFilters0).length ≤ 1
  ∧ dbGetOpportunities fallbackOppState oppFilters0 = fallbackOppState.staticOpps.getD [] :=
  ⟨((getOpportunities_public_filter_fallback oppRemoteState oppFilters0).2.1 rfl rfl).1,
   ((getOpportunities_public_filter_fallback oppRemoteState oppFilters0).2.1 rfl rfl).2.2
     1 rfl (by decide),
   (getOpportunities_public_filter_fallback fallbackOppState oppFilters0).2.2 (by decide)⟩

theorem digitChar_mod10_ne_dash (n : Nat) :
    (Nat.digitChar (n % 10) = '-') = False := by
  have hall : ∀ m, m < 10 → (Nat.digitChar m = '-') = False := by decide
  exact hall _ (Nat.mod_lt _ (by norm_num))

theorem digitChar_mod10_ne_colon (n : Nat) :
    (Nat.digitChar (n % 10) = ':') = False := by
  have hall : ∀ m, m < 10 → (Nat.digitChar m = ':') = False := by decide
  exact hall _ (Nat.mod_lt _ (by norm_num))

theorem digitChar_mod10_ne_dot (n : Nat) :
    (Nat.digitChar (n % 10) = '.') = False := by
  have hall : ∀ m, m < 10 → (Nat.digitChar m = '.') = False := by decide
  exact hall _ (Nat.mod_lt _ (by norm_num))

theorem digitChar_mod10_bne_dot (n : Nat) :
    (Nat.digitChar (n % 10) != '.') = true := by
  have hall : ∀ m, m < 10 → (Nat.digitChar m != '.') = true := by decide
  exact hall _ (Nat.mod_lt _ (by norm_num))

theorem digitChar_mod10_isDigit (n : Nat) :
    (Nat.digitChar (n % 10)).isDigit = true := by
  have hall : ∀ m, m < 10 → (Nat.digitChar m).isDigit = true := by decide
  exact hall _ (Nat.mod_lt _ (by norm_num))

theorem formatDateForICS_data (d : DateTimeUTC) :
    (formatDateForICS d).data =
      [Nat.digitChar (d.year / 1000 % 10), Nat.digitChar (d.year / 100 % 10),
       Nat.digitChar (d.year / 10 % 10), Nat.digitChar (d.year % 10),
       Nat.digitChar (d.month / 10 % 10), Nat.digitChar (d.month % 10),
       Nat.digitChar (d.day / 10 % 10), Nat.digitChar (d.day % 10), 'T',
       Nat.digitChar (d.hour / 10 % 10), Nat.digitChar (d.hour % 10),
       Nat.digitChar (d.minute / 10 % 10), Nat.digitChar (d.minute % 10),
       Nat.digitChar (d.second / 10 % 10), Nat.digitChar (d.second % 10), 'Z'] := by
  simp [formatDateForICS, jsSplitDotHead, jsStripDashColon, toISOString, pad4, pad2, pad3,
    String.data_append, List.filter_cons, List.takeWhile, digitChar_mod10_ne_dash,
    digitChar_mod10_ne_colon, digitChar_mod10_ne_dot, digitChar_mod10_bne_dot]

theorem isIcs_formatDateForICS (d : DateTimeUTC) :
    IsIcsUtcTimestamp (formatDateForICS d) := by
  unfold IsIcsUtcTimestamp
  rw [formatDateForICS_data]
  refine ⟨rfl, ?_, rfl, ?_, rfl⟩
  · intro c hc
    simp only [List.take, List.mem_cons, List.not_mem_nil, or_false] at hc
    rcases hc with h | h | h | h | h | h | h | h <;> subst h <;>
      exact digitChar_mod10_isDigit _
  · intro c hc
    simp only [List.drop, List.take, List.mem_cons, List.not_mem_nil, or_false] at hc
    rcases hc with h | h | h | h | h | h <;> subst h <;>
      exact digitChar_mod10_isDigit _

theorem suffix_of_append_right {l₁ l₂ l₃ : List Char} (h : l₁ <:+ l₃) :
    l₁ <:+ l₂ ++ l₃ := by
  obtain ⟨p, hp⟩ := h
  exact ⟨l₂ ++ p, by rw [List.append_assoc, hp]⟩

theorem infix_of_append_right {l₁ l₂ l₃ : List Char} (h : l₁ <:+: l₃) :
    l₁ <:+: l₂ ++ l₃ := by
  obtain ⟨s, t, hst⟩ := h
  refine ⟨l₂ ++ s, t, ?_⟩
  rw [← hst]
  simp [List.append_assoc]

theorem eventBlock_data (e : ScheduleItem) :
    (eventBlock e).data =
      "BEGIN:VEVENT\n".data ++
      (("UID:" ++ e.id ++ "@volunteerconnect\n").data ++
       (("DTSTART:" ++ formatDateForICS e.date ++ "\n").data ++
        (("SUMMARY:" ++ e.title ++ "\n").data ++
         (("DESCRIPTION:" ++ e.description.getD "" ++ "\n").data ++
          (("LOCATION:" ++ e.location.getD "" ++ "\n").data ++
           "END:VEVENT\n".data))))) := by
  simp [eventBlock, String.data_append, List.append_assoc]

/-- C9: for every schedule of exactly two events, the ICS export is the
fixed VCALENDAR header followed by exactly the two VEVENT blocks in
insertion order and the closing line; each block starts with
BEGIN:VEVENT and ends with END:VEVENT, carries a UID line containing
that event's id (distinct ids give distinct UID lines) and a DTSTART
line whose timestamp has the UTC form YYYYMMDDTHHMMSSZ. -/
theorem exportToICS_two_events (e1 e2 : ScheduleItem) :
    ScheduleManager.exportToICS [e1, e2] =
        icsHeader ++ eventBlock e1 ++ eventBlock e2 ++ "END:VCALENDAR"
  ∧ "BEGIN:VEVENT\n".data <+: (eventBlock e1).data
  ∧ "END:VEVENT\n".data <:+ (eventBlock e1).data
  ∧ "BEGIN:VEVENT\n".data <+: (eventBlock e2).data
  ∧ "END:VEVENT\n".data <:+ (eventBlock e2).data
  ∧ ("UID:" ++ e1.id ++ "@volunteerconnect\n").data <:+: (eventBlock e1).data
  ∧ ("UID:" ++ e2.id ++ "@volunteerconnect\n").data <:+: (eventBlock e2).data
  ∧ (e1.id ≠ e2.id →
      "UID:" ++ e1.id ++ "@volunteerconnect\n" ≠ "UID:" ++ e2.id ++ "@volunteerconnect\n")
  ∧ ("DTSTART:" ++ formatDateForICS e1.date ++ "\n").data <:+: (eventBlock e1).data
  ∧ ("DTSTART:" ++ formatDateForICS e2.date ++ "\n").data <:+: (eventBlock e2).data
  ∧ IsIcsUtcTimestamp (formatDateForICS e1.date)
  ∧ IsIcsUtcTimestamp (formatDateForICS e2.date) := by
  refine ⟨rfl, ?_, ?_, ?_, ?_, ?_, ?_, ?_, ?_, ?_,
    isIcs_formatDateForICS e1.date, isIcs_formatDateForICS e2.date⟩
  · rw [eventBlock_data]
    exact List.prefix_append _ _
  · rw [eventBlock_data]
    exact suffix_of_append_right (suffix_of_append_right (suffix_of_append_right
      (suffix_of_append_right (suffix_of_append_right (suffix_of_append_right
        (List.suffix_refl _))))))
  · rw [eventBlock_data]
    exact List.prefix_append _ _
  · rw [eventBlock_data]
    exact suffix_of_append_right (suffix_of_append_right (suffix_of_append_right
      (suffix_of_append_right (suffix_of_append_right (suffix_of_append_right
        (List.suffix_refl _))))))
  · rw [eventBlock_data]
    exact infix_of_append_right (List.prefix_append _ _).isInfix
  · rw [eventBlock_data]
    exact infix_of_append_right (List.prefix_append _ _).isInfix
  · intro hne heq
    apply hne
    have hd := congrArg String.data heq
    simp only [String.data_append] at hd
    exact String.ext (List.append_cancel_left (List.append_cancel_right hd))
  · rw [eventBlock_data]
    exact infix_of_append_right (infix_of_append_right (List.prefix_append _ _).isInfix)
  · rw [eventBlock_data]
    exact infix_of_append_right (infix_of_append_right (List.prefix_append _ _).isInfix)

theorem exportToICS_two_events_witness :
    ScheduleManager.exportToICS [sampleEvent1, sampleEvent2] =
        icsHeader ++ eventBlock sampleEvent1 ++ eventBlock sampleEvent2 ++ "END:VCALENDAR"
  ∧ ("UID:" ++ sampleEvent1.id ++ "@volunteerconnect\n" ≠
      "UID:" ++ sampleEvent2.id ++ "@volunteerconnect\n")
  ∧ IsIcsUtcTimestamp (formatDateForICS sampleEvent1.date) :=
  ⟨(exportToICS_two_events sampleEvent1 sampleEvent2).1,
   (exportToICS_two_events sampleEvent1 sampleEvent2).2.2.2.2.2.2.2.1 (by decide),
   (exportToICS_two_events sampleEvent1 sampleEvent2).2.2.2.2.2.2.2.2.2.2.1⟩
